import Mathlib

/-!
Shallow embedding of the job-lifecycle / progress-streaming subsystem of
`src/udown/web.py` (functions `_sse`, `_queue_put`, class `JobManager`,
class `WebProgressHook`, worker `_download_task`, the `/download` handler
`start_download`, and the `/stream/<job_id>` drain loop `event_stream`),
together with theorems settling the frozen claims about that code.

Modelling conventions:
- the job channel is `queue.Queue[str]`, so channel contents are plain
  strings (SSE frames produced by `_sse`);
- Python `dict` objects (the callback dict `d`, its `info_dict`) are
  modelled as structures of `Option`-valued fields, `none` standing for a
  missing key or `None`; Python truthiness tests (`or` chains, `if video_id`)
  are made explicit via `truthyStr` / `truthyNat`;
- byte counts are `Nat`, the computed percentage is `ℚ`; the f-string
  rendering `f"{progress:.1f}"` is modelled by rounding to one decimal
  (`round1`), tie-breaking and binary-float details abstracted away;
- `str.splitlines` is modelled for LF line endings (the only ones the
  subsystem produces);
- concurrency is modelled by sequentializing: each shared-state operation
  (queue put, dict pop) is an atomic state transformer, and the stream the
  worker produces is the list of its `_queue_put` calls in program order.
-/

namespace UDown

/-! ### Character-list helpers for Python `in` (substring) and `splitlines` -/

/-- Boolean prefix test on character lists (`needle` is a prefix of `hay`). -/
def listPre : List Char → List Char → Bool
  | [], _ => true
  | _ :: _, [] => false
  | a :: as, b :: bs => a == b && listPre as bs

/-- Boolean infix test on character lists; models the Python substring
operator `needle in hay`. -/
def hasInfix (needle : List Char) : List Char → Bool
  | [] => listPre needle []
  | c :: rest => listPre needle (c :: rest) || hasInfix needle rest

/-- Python `str.splitlines` restricted to LF line endings: split on each
newline character; the final segment is kept only when nonempty. -/
def pySplitlinesAux (cur : List Char) : List Char → List String
  | [] => if cur.isEmpty then [] else [String.mk cur.reverse]
  | c :: cs =>
      if c = '\n' then String.mk cur.reverse :: pySplitlinesAux [] cs
      else pySplitlinesAux (c :: cur) cs

/-- Python `str(data).splitlines()` as used by `_sse` (LF-only model). -/
def pySplitlines (s : String) : List String := pySplitlinesAux [] s.data

/-! ### `_sse` (web.py lines 18-21): SSE frame encoding -/

/-- `_sse(event, data)`: `lines = str(data).splitlines() or [""]`,
`payload = "\n".join(f"data: {line}" for line in lines)`, returning
`f"event: {event}\n{payload}\n\n"`. -/
def sse (event data : String) : String :=
  let lines := match pySplitlines data with
    | [] => [""]
    | ls => ls
  let payload := String.intercalate "\n" (lines.map (fun l => "data: " ++ l))
  "event: " ++ event ++ "\n" ++ payload ++ "\n\n"

/-- The substring test `"event: finished" in message` from the drain loop
(web.py line 209). -/
def hasFinMark (m : String) : Bool :=
  hasInfix ("event: finished").data m.data

/-! ### `_queue_put` (web.py lines 24-28) and the bounded channel

`queue.Queue(maxsize=10_000)` with `q.put(message, timeout=0.5)` inside a
`try/except queue.Full: pass`.  In the atomic-state model a put on a full
queue raises `queue.Full` after its bounded 0.5 s wait and is swallowed,
so `_queue_put` is the total state transformer below: enqueue when below
capacity, drop (state unchanged) otherwise; the caller always returns and
no error escapes. -/

/-- A bounded FIFO channel of SSE frames (`queue.Queue[str]`). -/
structure Chan where
  capacity : Nat
  buf : List String
deriving DecidableEq

/-- `_queue_put(q, message)`: enqueue if below capacity, else drop. -/
def queuePut (q : Chan) (m : String) : Chan :=
  if q.buf.length < q.capacity then { q with buf := q.buf ++ [m] } else q

/-! ### `Job` and `JobManager` (web.py lines 31-54)

The registry dict `self._jobs` is modelled as an association list whose
keys are unique by construction (`uuid4().hex` for each insert); the
mutex `self._lock` makes each method one atomic step, which is what the
state-transformer model provides. -/

/-- A job record: its channel and creation time (`Job` dataclass). -/
structure JobRec where
  chan : Chan
  created_at : Nat
deriving DecidableEq

/-- The registry backing table `self._jobs : dict[str, Job]`. -/
def Registry := List (String × JobRec)

/-- `JobManager.create` with the fresh `uuid4().hex` identifier and the
current time supplied as arguments: insert a record with a fresh
`queue.Queue(maxsize=10_000)` and return the identifier. -/
def jmCreate (jobs : Registry) (freshId : String) (now : Nat) : String × Registry :=
  (freshId, (freshId, JobRec.mk (Chan.mk 10000 []) now) :: jobs)

/-- `JobManager.get`: pure lookup (`self._jobs.get(job_id)`). -/
def jmGet (jobs : Registry) (id : String) : Option JobRec :=
  List.lookup id jobs

/-- `JobManager.pop`: `self._jobs.pop(job_id, None)` — return the record
when present (else `None`) and remove the entry; removal of the unique
key is expressed as filtering it out. -/
def jmPop (jobs : Registry) (id : String) : Option JobRec × Registry :=
  (List.lookup id jobs, jobs.filter (fun kv => !(kv.1 == id)))

/-! ### Event envelopes

`WebProgressHook`, `_download_task` and the logger push SSE frames whose
event names are `new_video`, `progress`, `message`, `job_error`,
`finished`.  The structured envelope type below records the event kind
and the payload the code serializes (for `progress`, the fields of the
JSON object `progress_data`, with the percentage as the rounded rational
that `f"{progress:.1f}"` renders). -/

/-- The event kinds of the subsystem's envelopes. -/
inductive EKind where
  | new_video
  | progress
  | message
  | job_error
  | finished
deriving DecidableEq

/-- A structured event envelope. -/
inductive Env where
  | new_video (title : String)
  | progress (video_id : Option String) (percent : ℚ) (speed : String) (eta : String)
  | message (text : String)
  | job_error (text : String)
  | finished
deriving DecidableEq

/-- The kind of an envelope. -/
def Env.kind : Env → EKind
  | .new_video _ => .new_video
  | .progress _ _ _ _ => .progress
  | .message _ => .message
  | .job_error _ => .job_error
  | .finished => .finished

/-! ### `WebProgressHook` (web.py lines 57-85) -/

/-- The fields of the yt-dlp callback dict `d` that the hook reads.
`info_id`, `info_title`, `info_filename` are `d["info_dict"]["id"]`,
`...["title"]`, `...["_filename"]`; a missing `info_dict` is the same as
all three being absent. -/
structure Callback where
  status : Option String
  info_id : Option String
  info_title : Option String
  info_filename : Option String
  total_bytes : Option Nat
  total_bytes_estimate : Option Nat
  downloaded_bytes : Option Nat
  speed_str : Option String
  eta_str : Option String
deriving DecidableEq

/-- Python truthiness of an optional string (`None` and `""` are falsy). -/
def truthyStr : Option String → Option String
  | none => none
  | some s => if s = "" then none else some s

/-- Python truthiness of an optional number (`None` and `0` are falsy). -/
def truthyNat : Option Nat → Option Nat
  | none => none
  | some n => if n = 0 then none else some n

/-- `d.get("total_bytes") or d.get("total_bytes_estimate") or 0`. -/
def effTotal (d : Callback) : Nat :=
  match truthyNat d.total_bytes with
  | some n => n
  | none =>
    match truthyNat d.total_bytes_estimate with
    | some n => n
    | none => 0

/-- `d.get("downloaded_bytes") or 0`. -/
def effDownloaded (d : Callback) : Nat :=
  match truthyNat d.downloaded_bytes with
  | some n => n
  | none => 0

/-- Rounding to one decimal place, the model of `f"{x:.1f}"`. -/
def round1 (x : ℚ) : ℚ := (round (x * 10) : ℤ) / 10

/-- The percentage the hook emits:
`progress = (downloaded_bytes / total_bytes) * 100 if total_bytes else 0`,
rendered to one decimal place. -/
def dlPercent (downloaded total : Nat) : ℚ :=
  if total = 0 then round1 0 else round1 (((downloaded : ℚ) / (total : ℚ)) * 100)

/-- The hook's single piece of mutable state, `self._current_video_id`. -/
structure HookState where
  currentVideoId : Option String
deriving DecidableEq

/-- `WebProgressHook.__call__(d)`: returns the updated state and the list
of envelopes pushed during this callback, in push order. -/
def hookCall (st : HookState) (d : Callback) : HookState × List Env :=
  if d.status = some "downloading" then
    let vid := d.info_id
    let stepNew : HookState × List Env :=
      match truthyStr vid with
      | some v =>
          if st.currentVideoId ≠ some v then
            (HookState.mk (some v), [Env.new_video (d.info_title.getD v)])
          else (st, [])
      | none => (st, [])
    (stepNew.1,
      stepNew.2 ++
        [Env.progress vid (dlPercent (effDownloaded d) (effTotal d))
          (d.speed_str.getD "N/A") (d.eta_str.getD "N/A")])
  else if d.status = some "finished" then
    (st, [Env.message ("Download finished: " ++ d.info_filename.getD "")])
  else
    (st, [])

/-- Run the hook over a sequence of callbacks, concatenating the pushes. -/
def runHook (st : HookState) : List Callback → HookState × List Env
  | [] => (st, [])
  | d :: ds =>
    let step := hookCall st d
    let rest := runHook step.1 ds
    (rest.1, step.2 ++ rest.2)

/-! ### `_download_task` (web.py lines 88-113)

While `downloader.download_playlist` runs it may invoke the progress hook
and the two logger callbacks (web.py lines 162-165) in any interleaving;
an emission trace records those invocations.  `download_playlist` either
returns a `playlist_info` dict that is guaranteed to contain `"title"`
(downloader.py lines 81-82 raise otherwise) or raises, and `str(e)` of the
raised fault is the `job_error` payload. -/

/-- One callback delivered by the engine while `fetch` runs: a progress
hook invocation, or a logger `warning`/`error` call. -/
inductive FetchEmission where
  | hook (d : Callback)
  | warn (msg : String)
  | err (msg : String)

/-- The outcome of `downloader.download_playlist`: a normal return with
the playlist title, or a raised fault with its textual description. -/
inductive FetchResult where
  | ok (title : String)
  | exn (msg : String)

/-- Envelopes pushed by the hook and the web logger during the fetch, in
order, threading the hook state (`warning_fn`/`error_fn` of the
`YtdlpLogger` built in `start_download` push `message` frames). -/
def runFetchEmissions (st : HookState) : List FetchEmission → HookState × List Env
  | [] => (st, [])
  | e :: es =>
    let step : HookState × List Env :=
      match e with
      | .hook d => hookCall st d
      | .warn m => (st, [Env.message ("⚠️ WARN: " ++ m)])
      | .err m => (st, [Env.message ("❌ ERROR: " ++ m)])
    let rest := runFetchEmissions step.1 es
    (rest.1, step.2 ++ rest.2)

/-- `_download_task`: push `message "Starting download..."`, run the fetch
(whose emissions land in order), then on normal return push the success
`message`, on a raised fault push `job_error str(e)` (the `except` arm),
and in the `finally` block always push `finished` last.  The function is
total: every branch, including the fault branch, ends in the `finally`
push, so the worker thread never propagates an exception. -/
def downloadTask (emissions : List FetchEmission) (result : FetchResult) : List Env :=
  Env.message "Starting download..." ::
    (runFetchEmissions (HookState.mk none) emissions).2 ++
      (match result with
       | .ok t => [Env.message ("Successfully downloaded playlist: \x27" ++ t ++ "\x27")]
       | .exn m => [Env.job_error m]) ++
      [Env.finished]

/-! ### The drain loop `event_stream` (web.py lines 200-212)

The generator repeatedly pops the channel (a 15 s timeout only yields a
keep-alive comment and continues, so timeouts do not affect which data
frames are forwarded and are not modelled), yields each popped message,
and breaks when the yielded message contains the substring
`"event: finished"`.  Its data behaviour is therefore a function of the
sequence of messages the channel delivers. -/

/-- Messages forwarded by the drain loop, given the channel's delivered
message sequence: each message is yielded, and the loop stops right after
the first message containing the `"event: finished"` mark. -/
def eventStream : List String → List String
  | [] => []
  | m :: rest => m :: (if hasFinMark m then [] else eventStream rest)

/-! ### `start_download` (web.py lines 128-174) -/

/-- Python whitespace characters recognized by `str.strip()`. -/
def isPySpace (c : Char) : Bool :=
  c == ' ' || c == '\t' || c == '\n' || c == '\r' || c == '\x0b' || c == '\x0c'

/-- Python `str.strip()`: drop leading and trailing whitespace. -/
def pyStrip (s : String) : String :=
  String.mk (((s.data.dropWhile isPySpace).reverse.dropWhile isPySpace).reverse)

/-- The form fields the `/download` handler reads; booleans model the
`"name" in request.form` membership tests. -/
structure StartForm where
  playlist_url : Option String
  quality : Option String
  to_mp3 : Bool
  audio_only : Bool
  simple_serial : Bool
  name_template : Option String
  output_dir : Option String
  save_metadata : Bool

/-- The options dict assembled for the worker. -/
structure Options where
  output_dir : String
  quality : String
  name_template : String
  save_metadata : Bool
  audio_format : Option String
deriving DecidableEq

/-- The handler's synchronous response: the 400 validation error, or the
`{job_id: ...}` payload of an accepted request. -/
inductive StartResult where
  | clientError (msg : String) (status : Nat)
  | started (job_id : String) (opts : Options)
deriving DecidableEq

/-- `start_download`, with the fresh identifier and the clock reading
supplied as arguments.  Returns the response, the updated registry, and
whether a worker thread was started.  `playlist_url` is read with default
`""` and stripped; an empty result is rejected with status 400 before any
job exists.  Otherwise the options are assembled exactly as in the code,
a job is created and a daemon worker thread is launched. -/
def startDownload (form : StartForm) (freshId : String) (now : Nat)
    (jobs : Registry) : StartResult × Registry × Bool :=
  let url := pyStrip (form.playlist_url.getD "")
  if url = "" then
    (StartResult.clientError "Playlist URL is required." 400, jobs, false)
  else
    let quality0 := form.quality.getD "best"
    let qa : String × Option String :=
      if form.to_mp3 then ("audio-only", some "mp3")
      else if form.audio_only then ("audio-only", none)
      else (quality0, none)
    let nameTemplate :=
      if form.simple_serial then "\x7bplaylist_index:02d\x7d.\x7bext\x7d"
      else form.name_template.getD "\x7bplaylist_index:02d\x7d - \x7btitle\x7d.\x7bext\x7d"
    let options : Options :=
      { output_dir := form.output_dir.getD "./downloads"
        quality := qa.1
        name_template := nameTemplate
        save_metadata := form.save_metadata
        audio_format := qa.2 }
    let created := jmCreate jobs freshId now
    (StartResult.started created.1 options, created.2, true)


/-! ### Concrete callback and form fixtures used by witnesses and
counterexamples -/

/-- A downloading callback for item `v1`: 50 of 100 bytes. -/
def cbHalf : Callback :=
  { status := some "downloading", info_id := some "v1", info_title := some "T"
    info_filename := none, total_bytes := some 100, total_bytes_estimate := none
    downloaded_bytes := some 50, speed_str := none, eta_str := none }

/-- A downloading callback for item `v1`: 100 of 100 bytes. -/
def cbFull : Callback :=
  { status := some "downloading", info_id := some "v1", info_title := some "T"
    info_filename := none, total_bytes := some 100, total_bytes_estimate := none
    downloaded_bytes := some 100, speed_str := none, eta_str := none }

/-- A downloading callback for item `v1` with no total reported. -/
def cbNoTotal : Callback :=
  { status := some "downloading", info_id := some "v1", info_title := some "T"
    info_filename := none, total_bytes := none, total_bytes_estimate := none
    downloaded_bytes := some 50, speed_str := none, eta_str := none }

/-- A downloading callback for item `v1` with zero bytes downloaded. -/
def cbZeroDone : Callback :=
  { status := some "downloading", info_id := some "v1", info_title := some "T"
    info_filename := none, total_bytes := some 100, total_bytes_estimate := none
    downloaded_bytes := some 0, speed_str := none, eta_str := none }

/-- A finished-status callback that carries a fresh item identifier. -/
def cbFinNew : Callback :=
  { status := some "finished", info_id := some "v2", info_title := some "T2"
    info_filename := some "out.mp4", total_bytes := none, total_bytes_estimate := none
    downloaded_bytes := none, speed_str := none, eta_str := none }

/-- A callback whose status is neither downloading nor finished. -/
def cbErrStatus : Callback :=
  { status := some "error", info_id := some "v9", info_title := none
    info_filename := none, total_bytes := none, total_bytes_estimate := none
    downloaded_bytes := none, speed_str := none, eta_str := none }

/-- A downloading callback with an empty item identifier. -/
def cbBlankId : Callback :=
  { status := some "downloading", info_id := some "", info_title := none
    info_filename := none, total_bytes := some 100, total_bytes_estimate := none
    downloaded_bytes := some 10, speed_str := none, eta_str := none }

/-- A form whose locator is all whitespace. -/
def formBlank : StartForm :=
  { playlist_url := some "   ", quality := none, to_mp3 := false
    audio_only := false, simple_serial := false, name_template := none
    output_dir := none, save_metadata := false }

/-- A form with a nonempty locator. -/
def formOk : StartForm :=
  { playlist_url := some "https://example.com/playlist", quality := none
    to_mp3 := false, audio_only := false, simple_serial := false
    name_template := none, output_dir := none, save_metadata := false }

/-! ### Helper lemmas -/

theorem listPre_append (n : List Char) : ∀ h t : List Char,
    listPre n h = true → listPre n (h ++ t) = true := by
  induction n with
  | nil => intro h t _; rfl
  | cons a as ih =>
    intro h t hp
    cases h with
    | nil => simp [listPre] at hp
    | cons b bs =>
      simp only [listPre, Bool.and_eq_true] at hp ⊢
      exact ⟨hp.1, ih bs t hp.2⟩

theorem hasInfix_of_pre (n : List Char) (h : List Char)
    (hp : listPre n h = true) : hasInfix n h = true := by
  cases h with
  | nil => simpa [hasInfix] using hp
  | cons c rest => simp [hasInfix, hp]

theorem finished_sse_has_mark (d : String) : hasFinMark (sse "finished" d) = true := by
  unfold hasFinMark sse
  apply hasInfix_of_pre
  simp only [String.data_append]
  have h1 : listPre ("event: finished").data
      (("event: ").data ++ ("finished").data ++ ("\n").data) = true := by decide
  exact listPre_append _ _ _ (listPre_append _ _ _ h1)

theorem eventStream_stops_at_first_mark (pre post : List String) (m : String)
    (hpre : ∀ x ∈ pre, hasFinMark x = false) (hm : hasFinMark m = true) :
    eventStream (pre ++ m :: post) = pre ++ [m] := by
  induction pre with
  | nil => simp [eventStream, hm]
  | cons a as ih =>
    have ha := hpre a (by simp)
    simp [eventStream, ha, ih (fun x hx => hpre x (by simp [hx]))]

theorem hookCall_shape (st : HookState) (d : Callback) :
    (hookCall st d).2 = [] ∨
    (∃ t, (hookCall st d).2 = [Env.message t]) ∨
    (∃ vid p sp et, (hookCall st d).2 = [Env.progress vid p sp et]) ∨
    (∃ ti vid p sp et,
      (hookCall st d).2 = [Env.new_video ti, Env.progress vid p sp et]) := by
  unfold hookCall
  dsimp only
  split
  · split
    · split
      · right; right; right; exact ⟨_, _, _, _, _, rfl⟩
      · right; right; left; exact ⟨_, _, _, _, rfl⟩
    · right; right; left; exact ⟨_, _, _, _, rfl⟩
  · split
    · right; left; exact ⟨_, rfl⟩
    · left; rfl

theorem hookCall_kinds (st : HookState) (d : Callback) :
    ∀ e ∈ (hookCall st d).2,
      e.kind = EKind.new_video ∨ e.kind = EKind.progress ∨ e.kind = EKind.message := by
  intro e he
  rcases hookCall_shape st d with h | ⟨t, h⟩ | ⟨vid, p, sp, et, h⟩ | ⟨ti, vid, p, sp, et, h⟩ <;>
    rw [h] at he <;> simp at he
  · right; right; rw [he]; rfl
  · right; left; rw [he]; rfl
  · rcases he with he | he
    · left; rw [he]; rfl
    · right; left; rw [he]; rfl

theorem runFetchEmissions_kinds (es : List FetchEmission) :
    ∀ st : HookState, ∀ e ∈ (runFetchEmissions st es).2,
      e.kind = EKind.new_video ∨ e.kind = EKind.progress ∨ e.kind = EKind.message := by
  induction es with
  | nil => intro st e he; simp [runFetchEmissions] at he
  | cons x xs ih =>
    intro st e he
    unfold runFetchEmissions at he
    dsimp only at he
    rcases List.mem_append.1 he with h | h
    · cases x with
      | hook d => exact hookCall_kinds st d e h
      | warn m => simp at h; right; right; rw [h]; rfl
      | err m => simp at h; right; right; rw [h]; rfl
    · cases x with
      | hook d => exact ih _ e h
      | warn m => exact ih _ e h
      | err m => exact ih _ e h

theorem downloadTask_last (es : List FetchEmission) (r : FetchResult) :
    (downloadTask es r).getLast? = some Env.finished := by
  unfold downloadTask
  exact List.getLast?_concat _

theorem dlPercent_pos (dl t : Nat) (h : t ≠ 0) :
    dlPercent dl t = round1 (((dl : ℚ) / (t : ℚ)) * 100) := by
  simp [dlPercent, h]

theorem dlPercent_of_zero_total (dl : Nat) : dlPercent dl 0 = 0 := by
  simp [dlPercent, round1]

/-! ### Claim theorems -/

/-- Claim C1: for every fetch emission trace and every fetch outcome
(normal return or raised fault), the worker pushes exactly one `finished`
envelope, and it is the last envelope pushed; the `finally` push is
unconditional since both the success arm and the `except` arm of the model
are total. -/
theorem worker_single_trailing_finished (es : List FetchEmission) (r : FetchResult) :
    (downloadTask es r).getLast? = some Env.finished ∧
    (downloadTask es r).countP (fun e => e.kind == EKind.finished) = 1 := by
  constructor
  · exact downloadTask_last es r
  · unfold downloadTask
    rw [List.countP_append, List.countP_append, List.countP_cons]
    have h1 : (runFetchEmissions (HookState.mk none) es).2.countP
        (fun e => e.kind == EKind.finished) = 0 := by
      refine List.countP_eq_zero.2 (fun e he => ?_)
      rcases runFetchEmissions_kinds es (HookState.mk none) e he with h | h | h <;>
        simp [h]
    have h2 : List.countP (fun (e : Env) => e.kind == EKind.finished)
        (match r with
         | FetchResult.ok t => [Env.message ("Successfully downloaded playlist: \x27" ++ t ++ "\x27")]
         | FetchResult.exn m => [Env.job_error m]) = 0 := by
      cases r <;> rfl
    rw [h1, h2]
    rfl

/-- Claim C2: if the fetch raises a fault with description `m`, the worker
catches it (the model of the task is total, so nothing escapes the worker),
the pushed stream contains exactly one `job_error` envelope, it carries
`m`, and the stream still ends with `finished`. -/
theorem worker_fault_single_job_error (es : List FetchEmission) (m : String) :
    (downloadTask es (FetchResult.exn m)).filter (fun e => e.kind == EKind.job_error)
      = [Env.job_error m] ∧
    (downloadTask es (FetchResult.exn m)).getLast? = some Env.finished := by
  constructor
  · unfold downloadTask
    rw [List.filter_append, List.filter_append, List.filter_cons]
    have h1 : (runFetchEmissions (HookState.mk none) es).2.filter
        (fun e => e.kind == EKind.job_error) = [] := by
      refine List.filter_eq_nil_iff.2 (fun e he => ?_)
      rcases runFetchEmissions_kinds es (HookState.mk none) e he with h | h | h <;>
        simp [h]
    rw [h1]
    rfl
  · exact downloadTask_last es (FetchResult.exn m)

/-- Claim C3, counterexample: the loop's termination test is the substring
check `"event: finished" in message` on the whole SSE frame, so a
`message`-kind envelope whose payload contains that text terminates the
loop, and the actual `finished` envelope queued right behind it is never
forwarded. -/
theorem drain_loop_stops_on_nonfinished_frame :
    eventStream [sse "message" "event: finished", sse "finished" "close"]
      = [sse "message" "event: finished"] := by decide

/-- Claim C3, amended: the drain loop forwards envelopes in order and
terminates exactly when the frame it just forwarded contains the substring
`"event: finished"`; every `finished` envelope contains that substring
(so the loop never continues past a `finished` envelope), but frames of
other kinds whose payload embeds the text also terminate it. -/
theorem drain_loop_mark_semantics (pre post : List String) (m : String)
    (hpre : ∀ x ∈ pre, hasFinMark x = false) (hm : hasFinMark m = true) :
    eventStream (pre ++ m :: post) = pre ++ [m] ∧
    ∀ d, hasFinMark (sse "finished" d) = true :=
  ⟨eventStream_stops_at_first_mark pre post m hpre hm, finished_sse_has_mark⟩

/-- Witness for the amended C3 theorem at a concrete delivered sequence. -/
theorem drain_loop_mark_semantics_witness :
    eventStream [sse "progress" "p1", sse "finished" "close", sse "message" "late"]
      = [sse "progress" "p1", sse "finished" "close"] :=
  (drain_loop_mark_semantics [sse "progress" "p1"] [sse "message" "late"]
    (sse "finished" "close") (by decide) (by decide)).1

/-- Claim C4, counterexample: on a downloading callback with no total
(and on one with a genuine 0%), the emitted progress envelope carries the
percentage `0` — the unknown-total case is reported as zero, with no
distinguishable unknown sentinel. -/
theorem progress_unknown_total_reports_zero :
    (hookCall (HookState.mk (some "v1")) cbNoTotal).2
      = [Env.progress (some "v1") 0 "N/A" "N/A"] ∧
    (hookCall (HookState.mk (some "v1")) cbZeroDone).2
      = [Env.progress (some "v1") 0 "N/A" "N/A"] := by
  constructor
  · have h : dlPercent 50 0 = 0 := dlPercent_of_zero_total 50
    rw [← h]; rfl
  · have h : dlPercent 0 100 = 0 := by
      rw [dlPercent_pos 0 100 (by norm_num)]
      norm_num [round1]
    rw [← h]; rfl

/-- Claim C4, amended: on every downloading callback the hook emits one
progress envelope (after an optional `new_video`); its percentage is
`100 * downloaded / total` rounded to one decimal place when the effective
total is known and positive, and the plain value `0` when the total is
unknown or zero. -/
theorem progress_percent_formula (st : HookState) (d : Callback)
    (hs : d.status = some "downloading") :
    ∃ pre, (∀ e ∈ pre, e.kind = EKind.new_video) ∧
      (hookCall st d).2 = pre ++
        [Env.progress d.info_id (dlPercent (effDownloaded d) (effTotal d))
          (d.speed_str.getD "N/A") (d.eta_str.getD "N/A")] ∧
      (effTotal d ≠ 0 →
        dlPercent (effDownloaded d) (effTotal d)
          = round1 (((effDownloaded d : ℚ) / (effTotal d : ℚ)) * 100)) ∧
      (effTotal d = 0 → dlPercent (effDownloaded d) (effTotal d) = 0) := by
  have hmain : ∃ pre, (∀ e ∈ pre, e.kind = EKind.new_video) ∧
      (hookCall st d).2 = pre ++
        [Env.progress d.info_id (dlPercent (effDownloaded d) (effTotal d))
          (d.speed_str.getD "N/A") (d.eta_str.getD "N/A")] := by
    unfold hookCall
    dsimp only
    rw [if_pos hs]
    rcases htr : truthyStr d.info_id with _ | v
    · exact ⟨[], by simp, rfl⟩
    · dsimp only
      by_cases hne : st.currentVideoId ≠ some v
      · rw [if_pos hne]
        refine ⟨[Env.new_video (d.info_title.getD v)], ?_, rfl⟩
        intro e he
        simp only [List.mem_singleton] at he
        rw [he]; rfl
      · rw [if_neg hne]
        exact ⟨[], by simp, rfl⟩
  obtain ⟨pre, h1, h2⟩ := hmain
  exact ⟨pre, h1, h2, fun h => dlPercent_pos _ _ h,
    fun h => by rw [h]; exact dlPercent_of_zero_total _⟩

/-- Witness for the amended C4 theorem at the concrete callback `cbHalf`. -/
theorem progress_percent_formula_witness :
    ∃ pre, (∀ e ∈ pre, e.kind = EKind.new_video) ∧
      (hookCall (HookState.mk (some "v1")) cbHalf).2 = pre ++
        [Env.progress cbHalf.info_id (dlPercent (effDownloaded cbHalf) (effTotal cbHalf))
          (cbHalf.speed_str.getD "N/A") (cbHalf.eta_str.getD "N/A")] ∧
      (effTotal cbHalf ≠ 0 →
        dlPercent (effDownloaded cbHalf) (effTotal cbHalf)
          = round1 (((effDownloaded cbHalf : ℚ) / (effTotal cbHalf : ℚ)) * 100)) ∧
      (effTotal cbHalf = 0 → dlPercent (effDownloaded cbHalf) (effTotal cbHalf) = 0) :=
  progress_percent_formula (HookState.mk (some "v1")) cbHalf rfl

/-- Claim C5: `_queue_put` is a total state transformer: when the channel
is below capacity the message is enqueued at the tail, and when it is at
capacity the push is dropped leaving the channel unchanged; no error is
raised in either case (the `queue.Full` of the bounded 0.5 s wait is
swallowed), so the worker never waits on the observer indefinitely. -/
theorem queue_put_drop_or_enqueue (q : Chan) (m : String) :
    (q.buf.length < q.capacity → queuePut q m = Chan.mk q.capacity (q.buf ++ [m])) ∧
    (¬ q.buf.length < q.capacity → queuePut q m = q) := by
  constructor
  · intro h; simp [queuePut, h]
  · intro h; simp [queuePut, h]

/-- Witness for the C5 theorem: one push below capacity, one at capacity. -/
theorem queue_put_drop_or_enqueue_witness :
    queuePut (Chan.mk 2 ["a"]) "b" = Chan.mk 2 ["a", "b"] ∧
    queuePut (Chan.mk 1 ["a"]) "b" = Chan.mk 1 ["a"] :=
  ⟨(queue_put_drop_or_enqueue (Chan.mk 2 ["a"]) "b").1 (by decide),
   (queue_put_drop_or_enqueue (Chan.mk 1 ["a"]) "b").2 (by decide)⟩

/-- Claim C6, counterexample: the hook recomputes the percentage from each
callback alone, so an engine that reports item `v1` at 100/100 and then at
50/100 produces consecutive `progress` envelopes for the same item whose
percentages decrease from 100 to 50. -/
theorem progress_percent_can_decrease :
    (runHook (HookState.mk none) [cbFull, cbHalf]).2
      = [Env.new_video "T", Env.progress (some "v1") 100 "N/A" "N/A",
         Env.progress (some "v1") 50 "N/A" "N/A"] ∧
    ¬ ((100 : ℚ) ≤ 50) := by
  constructor
  · have h1 : dlPercent 100 100 = 100 := by
      rw [dlPercent_pos 100 100 (by norm_num)]
      norm_num [round1, round_eq]
    have h2 : dlPercent 50 100 = 50 := by
      rw [dlPercent_pos 50 100 (by norm_num)]
      norm_num [round1, round_eq]
    rw [← h1, ← h2]
    rfl
  · norm_num

/-- Claim C6, amended: the emitted percentage is a monotone function of
the completion ratio the engine reports, so consecutive `progress`
envelopes of one item are non-decreasing exactly when the engine reports
non-decreasing `downloaded/total` ratios; the adapter itself does not
enforce monotonicity. -/
theorem dlPercent_monotone (d1 t1 d2 t2 : Nat) (h1 : t1 ≠ 0) (h2 : t2 ≠ 0)
    (hr : (d1 : ℚ) / (t1 : ℚ) ≤ (d2 : ℚ) / (t2 : ℚ)) :
    dlPercent d1 t1 ≤ dlPercent d2 t2 := by
  rw [dlPercent_pos d1 t1 h1, dlPercent_pos d2 t2 h2]
  unfold round1
  have hround : round ((d1 : ℚ) / (t1 : ℚ) * 100 * 10)
      ≤ round ((d2 : ℚ) / (t2 : ℚ) * 100 * 10) := by
    rw [round_eq, round_eq]
    apply Int.floor_le_floor
    nlinarith [hr]
  have hc : ((round ((d1 : ℚ) / (t1 : ℚ) * 100 * 10) : ℤ) : ℚ)
      ≤ ((round ((d2 : ℚ) / (t2 : ℚ) * 100 * 10) : ℤ) : ℚ) := by
    exact_mod_cast hround
  gcongr

/-- Witness for the amended C6 theorem: ratio 1/2 against ratio 3/4. -/
theorem dlPercent_monotone_witness : dlPercent 1 2 ≤ dlPercent 3 4 :=
  dlPercent_monotone 1 2 3 4 (by norm_num) (by norm_num) (by norm_num)


/-! ### Registry lemmas -/

theorem lookup_filter_out (jobs : Registry) (id : String) :
    List.lookup id (List.filter (fun kv => !(kv.1 == id)) jobs) = none := by
  induction jobs with
  | nil => rfl
  | cons kv rest ih =>
    rcases kv with ⟨k, v⟩
    by_cases h : k = id
    · rw [List.filter_cons_of_neg (by simp [h])]
      exact ih
    · rw [List.filter_cons_of_pos (by simp [h])]
      have hne : (id == k) = false := by
        simp [beq_iff_eq]
        exact fun hh => h hh.symm
      simp only [List.lookup, hne]
      exact ih

theorem filter_out_idem (jobs : Registry) (id : String) :
    List.filter (fun kv => !(kv.1 == id))
        (List.filter (fun kv => !(kv.1 == id)) jobs)
      = List.filter (fun kv => !(kv.1 == id)) jobs := by
  apply List.filter_eq_self.2
  intro a ha
  exact (List.mem_filter.1 ha).2

theorem filter_keep_of_lookup_none (jobs : Registry) (id : String)
    (h : List.lookup id jobs = none) :
    List.filter (fun kv => !(kv.1 == id)) jobs = jobs := by
  induction jobs with
  | nil => rfl
  | cons kv rest ih =>
    rcases kv with ⟨k, v⟩
    by_cases hk : id = k
    · exfalso
      subst hk
      simp [List.lookup] at h
    · have hbeq : (id == k) = false := by simp [hk]
      have h2 : List.lookup id rest = none := by
        simpa [List.lookup, hbeq] using h
      have hbeq2 : (k == id) = false := by simp [Ne.symm hk]
      rw [List.filter_cons_of_pos (by simp [hbeq2])]
      rw [ih h2]

/-- Claim C7: `JobManager.pop` returns the record exactly when the
identifier is present (else `None`), detaches it from the registry,
and is idempotent: a second pop of the same identifier returns `None`
and leaves the registry unchanged; when the identifier is absent the
registry is untouched.  The operation is a total function, so it never
raises. -/
theorem jobmanager_pop_idempotent (jobs : Registry) (id : String) :
    (jmPop jobs id).1 = List.lookup id jobs ∧
    List.lookup id (jmPop jobs id).2 = none ∧
    jmPop (jmPop jobs id).2 id = (none, (jmPop jobs id).2) ∧
    (List.lookup id jobs = none → (jmPop jobs id).2 = jobs) := by
  refine ⟨rfl, lookup_filter_out jobs id, ?_, ?_⟩
  · unfold jmPop
    rw [lookup_filter_out jobs id, filter_out_idem jobs id]
  · intro h
    exact filter_keep_of_lookup_none jobs id h

/-- Witness for the C7 theorem on a concrete one-entry registry and an
absent identifier. -/
theorem jobmanager_pop_idempotent_witness :
    (jmPop [("a", JobRec.mk (Chan.mk 2 []) 0)] "b").2
      = [("a", JobRec.mk (Chan.mk 2 []) 0)] :=
  (jobmanager_pop_idempotent [("a", JobRec.mk (Chan.mk 2 []) 0)] "b").2.2.2 (by decide)

/-- Claim C8: a start request whose locator strips to the empty string
(missing, empty, or all-whitespace) is rejected synchronously with the 400
client error, no registry entry is added and no worker is launched; any
other request is accepted: a record with a fresh 10000-capacity channel is
registered, a worker is launched, and the response carries the job
identifier. -/
theorem start_download_validation (form : StartForm) (freshId : String) (now : Nat)
    (jobs : Registry) :
    (pyStrip (form.playlist_url.getD "") = "" →
      startDownload form freshId now jobs
        = (StartResult.clientError "Playlist URL is required." 400, jobs, false)) ∧
    (pyStrip (form.playlist_url.getD "") ≠ "" →
      ∃ opts, startDownload form freshId now jobs
        = (StartResult.started freshId opts,
           (freshId, JobRec.mk (Chan.mk 10000 []) now) :: jobs, true)) := by
  constructor
  · intro h
    unfold startDownload
    rw [if_pos h]
  · intro h
    unfold startDownload
    rw [if_neg h]
    exact ⟨_, rfl⟩

/-- Witness for the C8 theorem: an all-whitespace locator is rejected with
the registry untouched; a nonempty locator yields the job identifier and
the new registry entry. -/
theorem start_download_validation_witness :
    startDownload formBlank "id1" 7 []
      = (StartResult.clientError "Playlist URL is required." 400, [], false) ∧
    ∃ opts, startDownload formOk "id1" 7 []
      = (StartResult.started "id1" opts,
         [("id1", JobRec.mk (Chan.mk 10000 []) 7)], true) :=
  ⟨(start_download_validation formBlank "id1" 7 []).1 (by decide),
   (start_download_validation formOk "id1" 7 []).2 (by decide)⟩

/-- Claim C9, counterexample: a `finished`-status callback that carries a
fresh item identifier (`v2`, different from the previously-seen state
`none`) emits no `new_video` envelope at all and leaves the adapter's
state unchanged — the id-change rule only runs for downloading callbacks. -/
theorem finished_status_emits_no_new_video :
    (hookCall (HookState.mk none) cbFinNew).1 = HookState.mk none ∧
    (hookCall (HookState.mk none) cbFinNew).2.countP
      (fun e => e.kind == EKind.new_video) = 0 ∧
    (hookCall (HookState.mk none) cbFinNew).2
      = [Env.message "Download finished: out.mp4"] :=
  ⟨rfl, rfl, rfl⟩

/-- Claim C9, amended: on every downloading callback whose truthy item
identifier differs from the previously seen one (including the initial
`none` state), the adapter emits `new_video` carrying the item title
(falling back to the identifier when no title is present) before the
`progress` envelope of the same callback, and updates its single piece of
state to the new identifier. -/
theorem new_video_emitted_on_id_change (st : HookState) (d : Callback) (v : String)
    (hs : d.status = some "downloading")
    (hid : truthyStr d.info_id = some v)
    (hne : st.currentVideoId ≠ some v) :
    hookCall st d
      = (HookState.mk (some v),
         [Env.new_video (d.info_title.getD v),
          Env.progress d.info_id (dlPercent (effDownloaded d) (effTotal d))
            (d.speed_str.getD "N/A") (d.eta_str.getD "N/A")]) := by
  unfold hookCall
  dsimp only
  rw [if_pos hs, hid]
  dsimp only
  rw [if_pos hne]
  rfl

/-- Witness for the amended C9 theorem at the concrete callback `cbFull`
from the initial state. -/
theorem new_video_emitted_on_id_change_witness :
    hookCall (HookState.mk none) cbFull
      = (HookState.mk (some "v1"),
         [Env.new_video "T",
          Env.progress (some "v1") (dlPercent 100 100) "N/A" "N/A"]) :=
  new_video_emitted_on_id_change (HookState.mk none) cbFull "v1" rfl (by decide)
    (by decide)

/-- Claim C10: a callback whose status is neither `downloading` nor
`finished` produces no envelope and leaves the hook state unchanged; and
any callback with a missing or empty (falsy) item identifier leaves the
previously-seen-item state unchanged. -/
theorem hook_other_status_frame (st : HookState) (d : Callback) :
    (d.status ≠ some "downloading" → d.status ≠ some "finished" →
      hookCall st d = (st, [])) ∧
    (truthyStr d.info_id = none → (hookCall st d).1 = st) := by
  constructor
  · intro h1 h2
    unfold hookCall
    rw [if_neg h1, if_neg h2]
  · intro h
    unfold hookCall
    dsimp only
    split
    · rw [h]
    · split <;> rfl

/-- Witness for the C10 theorem: an `error`-status callback emits nothing,
and a downloading callback with an empty identifier leaves the state
unchanged. -/
theorem hook_other_status_frame_witness :
    hookCall (HookState.mk (some "v1")) cbErrStatus = (HookState.mk (some "v1"), []) ∧
    (hookCall (HookState.mk (some "v1")) cbBlankId).1 = HookState.mk (some "v1") :=
  ⟨(hook_other_status_frame (HookState.mk (some "v1")) cbErrStatus).1
      (by decide) (by decide),
   (hook_other_status_frame (HookState.mk (some "v1")) cbBlankId).2 (by decide)⟩

end UDown
